import Mathlib

/-!
# Verification of the rlpbr batched-renderer core

Shallow embedding of the host-side orchestration logic of the rlpbr
GPU path tracer (src/src/vulkan/render.cpp, src/src/rlpbr_core/common.cpp,
src/bin/preprocess.cpp) together with theorems settling the frozen claims
about it.  Machine integers are modelled as Nat/Int with explicit
wrap-around where overflow matters; GPU-side float statistics are modelled
over the rationals (only order comparisons and exact divisions occur in the
host code under study); fallible operations return Option/Except.
-/

/- ------------------------------------------------------------------ -/
/- Parameter-buffer layout (render.cpp, getParamBufferConfig, 44-75)   -/
/- ------------------------------------------------------------------ -/

/-- Modelled from the spec: the allocator helper
MemoryAllocator::alignStorageBufferOffset (declared in the vulkan
memory header, which is absent from src/) rounds a byte offset up to the
device's minimum storage-buffer alignment a. -/
def alignStorageBufferOffset (a x : ℕ) : ℕ :=
  ((x + a - 1) / a) * a

/-- ParamBufferConfig (vulkan render header): byte offsets and sizes of
every sub-region of the per-batch parameter buffer. -/
structure ParamBufferConfig where
  totalTransformBytes : ℕ
  materialIndicesOffset : ℕ
  totalMaterialIndexBytes : ℕ
  lightsOffset : ℕ
  totalLightParamBytes : ℕ
  envOffset : ℕ
  totalEnvParamBytes : ℕ
  totalParamBytes : ℕ
deriving Repr, DecidableEq

/-- getParamBufferConfig (render.cpp 44-75).  The structure sizes
sizeof(InstanceTransform), sizeof(PackedLight), sizeof(PackedEnv) and the
capacities VulkanConfig::max_instances / max_lights live in headers not
present under src/, so they are parameters here; sizeof(uint32_t) = 4.
The alignment a is the device's minimum storage-buffer alignment. -/
def getParamBufferConfig (a batchSize sizeofInstanceTransform maxInstances
    sizeofPackedLight maxLights sizeofPackedEnv : ℕ) : ParamBufferConfig :=
  let totalTransformBytes := sizeofInstanceTransform * maxInstances
  let curOffset0 := totalTransformBytes
  let materialIndicesOffset := alignStorageBufferOffset a curOffset0
  let totalMaterialIndexBytes := 4 * maxInstances
  let curOffset1 := materialIndicesOffset + totalMaterialIndexBytes
  let lightsOffset := alignStorageBufferOffset a curOffset1
  let totalLightParamBytes := sizeofPackedLight * maxLights
  let curOffset2 := lightsOffset + totalLightParamBytes
  let envOffset := alignStorageBufferOffset a curOffset2
  let totalEnvParamBytes := sizeofPackedEnv * batchSize
  let curOffset3 := envOffset + totalEnvParamBytes
  { totalTransformBytes := totalTransformBytes
    materialIndicesOffset := materialIndicesOffset
    totalMaterialIndexBytes := totalMaterialIndexBytes
    lightsOffset := lightsOffset
    totalLightParamBytes := totalLightParamBytes
    envOffset := envOffset
    totalEnvParamBytes := totalEnvParamBytes
    totalParamBytes := alignStorageBufferOffset a curOffset3 }

/- ------------------------------------------------------------------ -/
/- Adaptive sampling (render.cpp 1792-1978)                            -/
/- ------------------------------------------------------------------ -/

/-- One work-item record written by the writeTile lambda
(render.cpp 1832-1844). -/
structure InputTile where
  batchIdx : ℕ
  xOffset : ℕ
  yOffset : ℕ
  sampleOffset : ℕ
deriving Repr, DecidableEq

/-- Per-tile convergence statistics read back from the GPU.  The struct
declaration lives in a shader-shared header absent from src/; the fields
are exactly those render.cpp accesses (tileMean, tileVarianceM2,
numSamples).  Float values are modelled as rationals. -/
structure AdaptiveTileStats where
  tileMean : ℚ
  tileVarianceM2 : ℚ
  numSamples : ℚ
deriving Repr, DecidableEq

/-- The float constant norm_variance_threshold = 5e-4 (render.cpp 1907);
the nearest-float rounding of the literal is immaterial here because the
code never reaches the comparison that uses it. -/
def normVarianceThreshold : ℚ := 5 / 10000

/-- The iteration cap max_adaptive_iters (render.cpp 1908). -/
def maxAdaptiveIters : ℕ := 10000

/-- Sample offsets produced by the inner for loop
for (sample_idx = 0; sample_idx < spp; sample_idx += per)
(render.cpp 1850-1854 and 1928-1932); per is the positive constant
VulkanConfig::adaptive_samples_per_thread. -/
def sampleChunkOffsets (spp per : ℕ) : List ℕ :=
  (List.range ((spp + per - 1) / per)).map (fun i => i * per)

/-- The sequence of InputTile records the writeTile lambda appends for one
(batch, tile) pair over all sample chunks. -/
def writeTileChunks (spp per batchIdx tileX tileY : ℕ) : List InputTile :=
  (sampleChunkOffsets spp per).map
    (fun off => ⟨batchIdx, tileX, tileY, off⟩)

/-- processAdaptiveTile (render.cpp 1910-1934): the result is the list of
work items re-emitted for the given tile.  The source lambda computes
variance and norm_variance and then executes an unconditional return
(render.cpp 1923) before its re-emission branch, so no work item is ever
emitted; the remainder of the lambda is embedded separately below as
processAdaptiveTileUnreachableTail. -/
def processAdaptiveTile (spp per batchIdx tileX tileY : ℕ)
    (tile : AdaptiveTileStats) (tileIlluminance : ℚ) : List InputTile :=
  let variance := tile.tileVarianceM2 / tile.numSamples
  let normVariance :=
    if tileIlluminance = 0 then 0 else tile.tileMean / tileIlluminance
  []

/-- The statements of processAdaptiveTile that follow the unconditional
return at render.cpp:1923 (lines 1925-1933); unreachable in the source. -/
def processAdaptiveTileUnreachableTail (spp per batchIdx tileX tileY : ℕ)
    (tile : AdaptiveTileStats) (tileIlluminance : ℚ) : List InputTile :=
  let normVariance :=
    if tileIlluminance = 0 then 0 else tile.tileMean / tileIlluminance
  if (normVariance = 0 ∧ tile.numSamples < (spp * 10 : ℕ)) ∨
      normVarianceThreshold < normVariance then
    writeTileChunks spp per batchIdx tileX tileY
  else []

/-- The convergence contract stated by the specification for one tile: it
must be re-emitted while its normalized variance (tile variance divided by
its sample count, compared against illuminance) is at or above the fixed
threshold, or while it has not yet received its minimum number of samples
(spp * 10 in the source). -/
def specTileUnconverged (spp : ℕ) (tile : AdaptiveTileStats)
    (tileIlluminance : ℚ) : Prop :=
  normVarianceThreshold ≤
      (if tileIlluminance = 0 then 0
       else (tile.tileVarianceM2 / tile.numSamples) / tileIlluminance) ∨
    tile.numSamples < (spp * 10 : ℕ)

/-- Number of executed iterations of the convergence for loop
(render.cpp 1936-1978) starting at iteration start with the given
remaining iteration budget; emit gives, for each iteration, the number of
work items re-emitted by the readback pass (num_tiles).  The body runs,
and if num_tiles == 0 the loop breaks after that iteration. -/
def adaptiveExecutedIters (emit : ℕ → ℕ) : ℕ → ℕ → ℕ
  | _, 0 => 0
  | start, fuel + 1 =>
    if emit start = 0 then 1
    else 1 + adaptiveExecutedIters emit (start + 1) fuel

/-- Total number of iterations the convergence loop executes:
for (adaptive_iter = 0; adaptive_iter < max_adaptive_iters; adaptive_iter++)
with a break when no tile was re-emitted. -/
def adaptiveLoopCount (emit : ℕ → ℕ) : ℕ :=
  adaptiveExecutedIters emit 0 maxAdaptiveIters

/- ------------------------------------------------------------------ -/
/- TLAS lifecycle per Environment (render.cpp 1640-1655, 2114-2129)    -/
/- ------------------------------------------------------------------ -/

/-- Modelled from the spec: the Environment dirty flag and its accessors
isDirty / clearDirty are declared in include/rlpbr/environment.hpp, which
is absent from src/; per the spec the flag is a boolean set by caller
mutations and cleared by the orchestrator after a TLAS build.  tlasBuilds
is a ghost counter of invocations of env_backend.tlas.build. -/
structure EnvironmentState where
  dirty : Bool
  tlasBuilds : ℕ
deriving Repr, DecidableEq

/-- The per-Environment body of the TLAS-build loop of VulkanBackend
render (render.cpp 1640-1655) and bakeProbe (render.cpp 2114-2129):
if (env.isDirty()) then build the TLAS and env.clearDirty(). -/
def renderTLASStep (env : EnvironmentState) : EnvironmentState :=
  if env.dirty then { dirty := false, tlasBuilds := env.tlasBuilds + 1 }
  else env

/- ------------------------------------------------------------------ -/
/- Reservoir double buffering (render.cpp 915-935, 1613-1616, 2069)    -/
/- ------------------------------------------------------------------ -/

/-- Reservoir buffer indices bound into descriptor set i by
makePerBatchState (render.cpp 915-935): binding 11 is the current
reservoir, binding 12 the previous one; set 0 gets (reservoirs[0],
reservoirs[1]) and set 1 gets (reservoirs[1], reservoirs[0]).  Result is
(current, previous). -/
def rtSetReservoirs (i : ℕ) : ℕ × ℕ :=
  if i = 0 then (0, 1) else (1, 0)

/-- Current-buffer advance at the end of VulkanBackend::render
(render.cpp 2069): curBuffer = (curBuffer + 1) & 1. -/
def nextCurBuffer (b : ℕ) : ℕ :=
  (b + 1) % 2

/-- The batch's curBuffer value at the start of the n-th render call;
VulkanBatch is created with curBuffer = 0 (render.cpp 1468-1476). -/
def curBufferAt : ℕ → ℕ
  | 0 => 0
  | n + 1 => nextCurBuffer (curBufferAt n)

/-- Reservoir buffer bound as current during the n-th render call
(render.cpp 1613-1616 binds rtSets[curBuffer]). -/
def currentReservoirAt (n : ℕ) : ℕ :=
  (rtSetReservoirs (curBufferAt n)).1

/-- Reservoir buffer bound as previous during the n-th render call. -/
def previousReservoirAt (n : ℕ) : ℕ :=
  (rtSetReservoirs (curBufferAt n)).2

/- ------------------------------------------------------------------ -/
/- Sampling-scheme selection at setup (render.cpp 185-236)             -/
/- ------------------------------------------------------------------ -/

/-- Bit length of v as a 32-bit value, via fuelled binary recursion;
bitLen32 32 v is the position of the highest set bit plus one. -/
def bitLen32 : ℕ → ℕ → ℕ
  | 0, _ => 0
  | fuel + 1, v => if v = 0 then 0 else bitLen32 fuel (v / 2) + 1

/-- __builtin_clz on a 32-bit value (render.cpp 195-197 assumes v > 0). -/
def clz32 (v : ℕ) : ℕ :=
  32 - bitLen32 32 v

/-- The log2Int lambda of makeRenderState (render.cpp 195-197):
32 - __builtin_clz(v) - 1. -/
def log2Int (v : ℕ) : ℕ :=
  32 - clz32 v - 1

/-- num_index_digits_base4 (render.cpp 221-222):
log2Int(max(imgWidth, imgHeight) - 1) + 1 + (log2_spp + 1) / 2. -/
def numIndexDigitsBase4 (imgWidth imgHeight spp : ℕ) : ℕ :=
  log2Int (max imgWidth imgHeight - 1) + 1 + (log2Int spp + 1) / 2

/-- The sampling scheme selected by makeRenderState through the
sampling_define string. -/
inductive SamplingScheme where
  | zsobol
  | uniform
deriving Repr, DecidableEq

/-- Outcome of the sampling-scheme selection: the chosen scheme and
whether the insufficient-bits warning was printed. -/
structure SamplingSetup where
  scheme : SamplingScheme
  warned : Bool
deriving Repr, DecidableEq

/-- Sampling-define selection (render.cpp 224-236): ZSobol when
num_index_digits_base4 * 2 <= 32, otherwise warn and fall back to uniform
sampling; a ForceUniform flag then overrides the scheme. -/
def chooseSamplingScheme (imgWidth imgHeight spp : ℕ)
    (forceUniform : Bool) : SamplingSetup :=
  let base :=
    if numIndexDigitsBase4 imgWidth imgHeight spp * 2 ≤ 32 then
      SamplingSetup.mk .zsobol false
    else
      SamplingSetup.mk .uniform true
  if forceUniform then { base with scheme := .uniform } else base

/-- The sampling-relevant prefix of makeRenderState (render.cpp 199-236):
the only fatal exit on this path is the adaptive-sampling SPP check at
render.cpp 208-211 (spp below VulkanConfig::adaptive_samples_per_thread,
a constant from a header absent from src/, passed here as a parameter);
the insufficient-bits case merely warns and continues. -/
def makeRenderStateSampling (adaptiveSample : Bool)
    (adaptiveSamplesPerThread imgWidth imgHeight spp : ℕ)
    (forceUniform : Bool) : Except Unit SamplingSetup :=
  if adaptiveSample = true ∧ spp < adaptiveSamplesPerThread then
    Except.error ()
  else
    Except.ok (chooseSamplingScheme imgWidth imgHeight spp forceUniform)

/- ------------------------------------------------------------------ -/
/- Scene-conversion tool (bin/preprocess.cpp 10-63)                    -/
/- ------------------------------------------------------------------ -/

/-- A glm::vec4 with the integer components used by preprocess.cpp. -/
structure Vec4i where
  x : ℤ
  y : ℤ
  z : ℤ
  w : ℤ
deriving Repr, DecidableEq

/-- A glm::mat4 as its four columns. -/
structure Mat4i where
  c0 : Vec4i
  c1 : Vec4i
  c2 : Vec4i
  c3 : Vec4i
deriving Repr, DecidableEq

/-- glm::mat4(1.f): the identity transform. -/
def identityMat4 : Mat4i :=
  { c0 := ⟨1, 0, 0, 0⟩
    c1 := ⟨0, 1, 0, 0⟩
    c2 := ⟨0, 0, 1, 0⟩
    c3 := ⟨0, 0, 0, 1⟩ }

/-- The convertArg lambda (preprocess.cpp 28-49): maps a direction keyword
to a signed unit-axis column, or fails (exit(EXIT_FAILURE)) on anything
else. -/
def convertArg (desc : String) : Option Vec4i :=
  if desc = "up" then some ⟨0, 1, 0, 0⟩
  else if desc = "down" then some ⟨0, -1, 0, 0⟩
  else if desc = "right" then some ⟨1, 0, 0, 0⟩
  else if desc = "left" then some ⟨-1, 0, 0, 0⟩
  else if desc = "forward" then some ⟨0, 0, 1, 0⟩
  else if desc = "backward" then some ⟨0, 0, -1, 0⟩
  else none

/-- main of the scene-conversion tool (preprocess.cpp 10-63) up to the
point where the ScenePreprocessor is constructed and dumps the output:
argv includes the program name (argc = argv.length); Except.error models
exit(EXIT_FAILURE) before any output is produced, Except.ok carries the
base transform and the SRC / DST arguments that drive the conversion. -/
def preprocessMain (argv : List String) :
    Except Unit (Mat4i × String × String) :=
  if argv.length < 3 then Except.error ()
  else
    let baseTxfm := identityMat4
    if 3 < argv.length then
      if argv.length ≠ 6 then Except.error ()
      else
        match convertArg (argv.getD 3 ""), convertArg (argv.getD 4 ""),
            convertArg (argv.getD 5 "") with
        | some vx, some vy, some vz =>
          Except.ok ({ baseTxfm with c0 := vx, c1 := vy, c2 := vz },
                     argv.getD 1 "", argv.getD 2 "")
        | _, _, _ => Except.error ()
    else Except.ok (baseTxfm, argv.getD 1 "", argv.getD 2 "")

/- ------------------------------------------------------------------ -/
/- Backend handle move operations (rlpbr_core/common.cpp)              -/
/- ------------------------------------------------------------------ -/

/-- EnvironmentImpl (backend.hpp 15-45): operation pointers are modelled
as abstract addresses; state is the opaque backend pointer, none being
nullptr. -/
structure EnvironmentImplState where
  destroyPtr : ℕ
  addLightPtr : ℕ
  removeLightPtr : ℕ
  state : Option ℕ
deriving Repr, DecidableEq

/-- EnvironmentImpl move constructor (common.cpp 20-27): copies all three
operation pointers and the state, then nulls the source's state.  Result
is (destination, source after the move). -/
def environmentMoveConstruct (o : EnvironmentImplState) :
    EnvironmentImplState × EnvironmentImplState :=
  ({ destroyPtr := o.destroyPtr
     addLightPtr := o.addLightPtr
     removeLightPtr := o.removeLightPtr
     state := o.state },
   { o with state := none })

/-- EnvironmentImpl move assignment (common.cpp 36-50): destroys the
previously held instance, copies all members from o, nulls o's state.
Result is (new destination, source after the move). -/
def environmentMoveAssign (dst o : EnvironmentImplState) :
    EnvironmentImplState × EnvironmentImplState :=
  ({ destroyPtr := o.destroyPtr
     addLightPtr := o.addLightPtr
     removeLightPtr := o.removeLightPtr
     state := o.state },
   { o with state := none })

/-- LoaderImpl (backend.hpp 70-98). -/
structure LoaderImplState where
  destroyPtr : ℕ
  loadScenePtr : ℕ
  loadEnvMapsPtr : ℕ
  state : Option ℕ
deriving Repr, DecidableEq

/-- LoaderImpl move constructor (common.cpp 72-79): copies all members
and nulls the source's state. -/
def loaderMoveConstruct (o : LoaderImplState) :
    LoaderImplState × LoaderImplState :=
  ({ destroyPtr := o.destroyPtr
     loadScenePtr := o.loadScenePtr
     loadEnvMapsPtr := o.loadEnvMapsPtr
     state := o.state },
   { o with state := none })

/-- LoaderImpl move assignment (common.cpp 88-101): assigns destroy_ptr_,
load_scene_ptr_ and state_ from o but never assigns load_env_maps_ptr_,
which therefore keeps the destination's previous value. -/
def loaderMoveAssign (dst o : LoaderImplState) :
    LoaderImplState × LoaderImplState :=
  ({ destroyPtr := o.destroyPtr
     loadScenePtr := o.loadScenePtr
     loadEnvMapsPtr := dst.loadEnvMapsPtr
     state := o.state },
   { o with state := none })

/-- RendererImpl (backend.hpp 105-173): twelve operation pointers plus
the opaque state pointer. -/
structure RendererImplState where
  destroyPtr : ℕ
  makeBakerPtr : ℕ
  makeLoaderPtr : ℕ
  makeEnvPtr : ℕ
  setEnvMapsPtr : ℕ
  makeBatchPtr : ℕ
  renderPtr : ℕ
  bakePtr : ℕ
  waitPtr : ℕ
  getOutputPtr : ℕ
  getBakeOutputPtr : ℕ
  getAuxPtr : ℕ
  state : Option ℕ
deriving Repr, DecidableEq

/-- RendererImpl move constructor (common.cpp 131-145): its initializer
list omits make_baker_ptr_ and make_batch_ptr_, which are therefore
indeterminate in the destination; they are modelled as the arbitrary
values junkBaker and junkBatch. -/
def rendererMoveConstruct (junkBaker junkBatch : ℕ)
    (o : RendererImplState) : RendererImplState × RendererImplState :=
  ({ destroyPtr := o.destroyPtr
     makeBakerPtr := junkBaker
     makeLoaderPtr := o.makeLoaderPtr
     makeEnvPtr := o.makeEnvPtr
     setEnvMapsPtr := o.setEnvMapsPtr
     makeBatchPtr := junkBatch
     renderPtr := o.renderPtr
     bakePtr := o.bakePtr
     waitPtr := o.waitPtr
     getOutputPtr := o.getOutputPtr
     getBakeOutputPtr := o.getBakeOutputPtr
     getAuxPtr := o.getAuxPtr
     state := o.state },
   { o with state := none })

/-- RendererImpl move assignment (common.cpp 154-172): assigns only
destroy_ptr_, make_loader_ptr_, make_env_ptr_, render_ptr_, wait_ptr_,
get_output_ptr_, get_aux_ptr_ and state_ from o; make_baker_ptr_,
set_env_maps_ptr_, make_batch_ptr_, bake_ptr_ and get_bake_output_ptr_
keep the destination's previous values. -/
def rendererMoveAssign (dst o : RendererImplState) :
    RendererImplState × RendererImplState :=
  ({ destroyPtr := o.destroyPtr
     makeBakerPtr := dst.makeBakerPtr
     makeLoaderPtr := o.makeLoaderPtr
     makeEnvPtr := o.makeEnvPtr
     setEnvMapsPtr := dst.setEnvMapsPtr
     makeBatchPtr := dst.makeBatchPtr
     renderPtr := o.renderPtr
     bakePtr := dst.bakePtr
     waitPtr := o.waitPtr
     getOutputPtr := o.getOutputPtr
     getBakeOutputPtr := dst.getBakeOutputPtr
     getAuxPtr := o.getAuxPtr
     state := o.state },
   { o with state := none })

/- ------------------------------------------------------------------ -/
/- Probe file serialization (render.cpp 2458-2560, 2562-2702, 2704-96) -/
/- ------------------------------------------------------------------ -/

/-- Little-endian byte encoding of n on k bytes (truncating above
256 ^ k), as produced by file.write of a k-byte integer. -/
def toLEBytes : ℕ → ℕ → List ℕ
  | 0, _ => []
  | k + 1, n => n % 256 :: toLEBytes k (n / 256)

/-- Value of a little-endian byte list, as obtained by file.read into an
integer of that width. -/
def fromLEBytes : List ℕ → ℕ
  | [] => 0
  | b :: bs => b + 256 * fromLEBytes bs

/-- An std::ifstream over in-memory bytes: read position plus the eofbit
and failbit state flags. -/
structure FileStream where
  data : List ℕ
  pos : ℕ
  eofbit : Bool
  failbit : Bool
deriving Repr, DecidableEq

/-- file.read(buf, n): a no-op when the stream is already failed; returns
the n bytes and advances when they are available; otherwise consumes what
remains, sets eofbit and failbit, and the destination is not (fully)
written, modelled as none. -/
def streamRead (s : FileStream) (n : ℕ) : Option (List ℕ) × FileStream :=
  if s.failbit then (none, s)
  else if s.pos + n ≤ s.data.length then
    (some ((s.data.drop s.pos).take n), { s with pos := s.pos + n })
  else
    (none, { s with pos := s.data.length, eofbit := true, failbit := true })

/-- file.eof(): true iff eofbit is set. -/
def FileStream.eof (s : FileStream) : Bool :=
  s.eofbit

/-- The byte-level content of one probe record as written by
serializeProbeToFile (render.cpp 2794-2795): the 8-byte VkDeviceSize
pr.size followed by that many raw image bytes (pr.size is the byte size
of the staged probe image, i.e. the content length). -/
def serializeProbeRecord (content : List ℕ) : List ℕ :=
  toLEBytes 8 content.length ++ content

/-- Concatenation of the records appended by the bake loop
(render.cpp 2549-2555), one per probe in order. -/
def serializeProbeRecords : List (List ℕ) → List ℕ
  | [] => []
  | p :: ps => serializeProbeRecord p ++ serializeProbeRecords ps

/-- The 12-byte glm::ivec3 grid-dimension header written at the start of
the probe file (render.cpp 2544-2545), each component a 4-byte integer. -/
def serializeProbeDim (d : ℕ × ℕ × ℕ) : List ℕ :=
  toLEBytes 4 d.1 ++ toLEBytes 4 d.2.1 ++ toLEBytes 4 d.2.2

/-- Full probe-file contents produced by a fresh bake: header followed by
one record per baked probe. -/
def serializeProbeFile (d : ℕ × ℕ × ℕ) (probes : List (List ℕ)) :
    List ℕ :=
  serializeProbeDim d ++ serializeProbeRecords probes

/-- deserializeProbeFromFile (render.cpp 2562-2702): reads the 8-byte
record size, then that many image bytes into a staging buffer, and always
constructs and returns a probe.  When a read fails (end of file) the
constructed probe holds indeterminate bytes, modelled as none. -/
def deserializeProbeFromFile (s : FileStream) :
    Option (List ℕ) × FileStream :=
  let r := streamRead s 8
  match r.1 with
  | some szBytes =>
    let sz := fromLEBytes szBytes
    let r2 := streamRead r.2 sz
    match r2.1 with
    | some content => (some content, r2.2)
    | none => (none, r2.2)
  | none => (none, r.2)

/-- The reader loop while (!file.eof()) probes_.push_back(
deserializeProbeFromFile(file)) (render.cpp 2480-2482).  The fuel bounds
the iteration count; every iteration either advances the position by at
least 8 bytes or sets failbit (stopping the next test), so
data.length + 2 iterations always suffice. -/
def readProbesLoop : ℕ → FileStream → List (Option (List ℕ)) →
    List (Option (List ℕ)) × FileStream
  | 0, s, acc => (acc, s)
  | fuel + 1, s, acc =>
    if s.eof then (acc, s)
    else
      let r := deserializeProbeFromFile s
      readProbesLoop fuel r.2 (acc ++ [r.1])

/-- The file-exists branch of VulkanBackend::bake (render.cpp 2468-2483):
read the 12-byte grid-dimension header, then deserialize records until
eof.  Result is none if the header read fails, otherwise the grid
dimensions and the probe list. -/
def bakeLoadProbes (data : List ℕ) :
    Option ((ℕ × ℕ × ℕ) × List (Option (List ℕ))) :=
  let s0 : FileStream := ⟨data, 0, false, false⟩
  let r := streamRead s0 12
  match r.1 with
  | some dimBytes =>
    some ((fromLEBytes (dimBytes.take 4),
           fromLEBytes ((dimBytes.drop 4).take 4),
           fromLEBytes ((dimBytes.drop 4).drop 4)),
          (readProbesLoop (data.length + 2) r.2 []).1)
  | none => none

/-- uint32_t wrap-around of probe_count - probes_.size()
(render.cpp 2506): the subtraction is performed in unsigned arithmetic
and truncated to 32 bits. -/
def uint32Sub (a b : ℕ) : ℕ :=
  (((a : ℤ) - (b : ℤ)) % (2 ^ 32 : ℤ)).toNat

/-- Observable outcome of one VulkanBackend::bake call
(render.cpp 2460-2560). -/
structure BakeResult where
  loadedProbes : List (Option (List ℕ))
  startIdx : ℕ
  numBakeCalls : ℕ
deriving Repr, DecidableEq

/-- VulkanBackend::bake (render.cpp 2460-2560) at the level of its
control flow.  probeDim is PROBE_DIM and fileData the contents of
probes.bin, none when the file does not exist.  The deserialization
branch runs when the file exists, but generation is NOT under an else: it
always continues with start = probes_.size(),
left = probe_count - probes_.size() (uint32 wrap-around, render.cpp 2506)
and one bakeProbe call per position index start + i for i < left
(render.cpp 2509-2555).  A none result models the assert on the header
dimensions firing (render.cpp 2478) or a failed header read. -/
def bakeModel (probeDim : ℕ × ℕ × ℕ) (fileData : Option (List ℕ)) :
    Option BakeResult :=
  let probeCount := probeDim.1 * probeDim.2.1 * probeDim.2.2
  match fileData with
  | none =>
    some { loadedProbes := []
           startIdx := 0
           numBakeCalls := uint32Sub probeCount 0 }
  | some data =>
    match bakeLoadProbes data with
    | some (dims, probes) =>
      if dims = probeDim then
        some { loadedProbes := probes
               startIdx := probes.length
               numBakeCalls := uint32Sub probeCount probes.length }
      else none
    | none => none

/-- Probe indices whose positions are generated and baked by the loop at
render.cpp 2510-2520 / 2549-2555: idx = start + i for i < left. -/
def bakedProbeIndices (r : BakeResult) : List ℕ :=
  (List.range r.numBakeCalls).map (fun i => r.startIdx + i)

/-- Probe indices actually passed to serializeProbeToFile inside the bake
loop (render.cpp 2553 passes the loop counter i, not start + i). -/
def appendedProbeIndices (r : BakeResult) : List ℕ :=
  List.range r.numBakeCalls

/- ================================================================== -/
/- Theorems                                                            -/
/- ================================================================== -/

theorem alignStorageBufferOffset_le (a x : ℕ) (ha : 0 < a) :
    x ≤ alignStorageBufferOffset a x := by
  unfold alignStorageBufferOffset
  have h := Nat.div_add_mod (x + a - 1) a
  have h2 := Nat.mod_lt (x + a - 1) ha
  rw [Nat.mul_comm]
  omega

theorem alignStorageBufferOffset_dvd (a x : ℕ) :
    a ∣ alignStorageBufferOffset a x := by
  unfold alignStorageBufferOffset
  exact dvd_mul_left a _

theorem alignStorageBufferOffset_eq_self (a x : ℕ) (ha : 0 < a)
    (hx : a ∣ x) : alignStorageBufferOffset a x = x := by
  obtain ⟨k, rfl⟩ := hx
  unfold alignStorageBufferOffset
  have h1 : a * k + a - 1 = a * k + (a - 1) := by omega
  have h2 : (a - 1) / a = 0 := Nat.div_eq_of_lt (by omega)
  rw [h1, Nat.mul_add_div ha, h2, Nat.add_zero, Nat.mul_comm]

/-- C4: for every batch size (and for the capacity constants and device
alignment, which are parameters of the embedding), the layout computed by
getParamBufferConfig has monotonically increasing, non-overlapping,
alignment-divisible sub-region offsets; the total size equals the last
sub-region's end rounded up to the alignment, and it equals the rounded-up
sum of all sub-region sizes whenever each preceding region size is itself
a multiple of the alignment (the amendment: inter-region padding makes the
unconditional sum formula of the original claim false, see
C4_total_size_counterexample). -/
theorem C4_param_buffer_layout (a bs sIT mI sPL mL sPE : ℕ)
    (c : ParamBufferConfig)
    (hc : getParamBufferConfig a bs sIT mI sPL mL sPE = c)
    (ha : 0 < a) (hIT : 0 < sIT) (hmI : 0 < mI) (hPL : 0 < sPL)
    (hmL : 0 < mL) (hPE : 0 < sPE) (hbs : 0 < bs) :
    (0 < c.materialIndicesOffset ∧
     c.materialIndicesOffset < c.lightsOffset ∧
     c.lightsOffset < c.envOffset ∧
     c.envOffset < c.totalParamBytes) ∧
    (c.totalTransformBytes ≤ c.materialIndicesOffset ∧
     c.materialIndicesOffset + c.totalMaterialIndexBytes ≤ c.lightsOffset ∧
     c.lightsOffset + c.totalLightParamBytes ≤ c.envOffset ∧
     c.envOffset + c.totalEnvParamBytes ≤ c.totalParamBytes) ∧
    (a ∣ c.materialIndicesOffset ∧ a ∣ c.lightsOffset ∧ a ∣ c.envOffset ∧
     a ∣ c.totalParamBytes) ∧
    c.totalParamBytes =
      alignStorageBufferOffset a (c.envOffset + c.totalEnvParamBytes) ∧
    (a ∣ sIT * mI → a ∣ 4 * mI → a ∣ sPL * mL →
      c.totalParamBytes =
        alignStorageBufferOffset a (sIT * mI + 4 * mI + sPL * mL + sPE * bs)) := by
  subst hc
  dsimp only [getParamBufferConfig]
  have hT : 0 < sIT * mI := Nat.mul_pos hIT hmI
  have hM : 0 < 4 * mI := Nat.mul_pos (by omega) hmI
  have hL : 0 < sPL * mL := Nat.mul_pos hPL hmL
  have hE : 0 < sPE * bs := Nat.mul_pos hPE hbs
  have h1 := alignStorageBufferOffset_le a (sIT * mI) ha
  have h1d := alignStorageBufferOffset_dvd a (sIT * mI)
  have h2 := alignStorageBufferOffset_le a
    (alignStorageBufferOffset a (sIT * mI) + 4 * mI) ha
  have h2d := alignStorageBufferOffset_dvd a
    (alignStorageBufferOffset a (sIT * mI) + 4 * mI)
  have h3 := alignStorageBufferOffset_le a
    (alignStorageBufferOffset a
      (alignStorageBufferOffset a (sIT * mI) + 4 * mI) + sPL * mL) ha
  have h3d := alignStorageBufferOffset_dvd a
    (alignStorageBufferOffset a
      (alignStorageBufferOffset a (sIT * mI) + 4 * mI) + sPL * mL)
  have h4 := alignStorageBufferOffset_le a
    (alignStorageBufferOffset a
      (alignStorageBufferOffset a
        (alignStorageBufferOffset a (sIT * mI) + 4 * mI) + sPL * mL) +
      sPE * bs) ha
  have h4d := alignStorageBufferOffset_dvd a
    (alignStorageBufferOffset a
      (alignStorageBufferOffset a
        (alignStorageBufferOffset a (sIT * mI) + 4 * mI) + sPL * mL) +
      sPE * bs)
  refine ⟨⟨by omega, by omega, by omega, by omega⟩,
          ⟨by omega, by omega, by omega, by omega⟩,
          ⟨h1d, h2d, h3d, h4d⟩, rfl, ?_⟩
  intro hdT hdM hdL
  rw [alignStorageBufferOffset_eq_self a (sIT * mI) ha hdT,
      alignStorageBufferOffset_eq_self a (sIT * mI + 4 * mI) ha
        (Nat.dvd_add hdT hdM),
      alignStorageBufferOffset_eq_self a (sIT * mI + 4 * mI + sPL * mL) ha
        (Nat.dvd_add (Nat.dvd_add hdT hdM) hdL)]

/-- C4 witness: the layout theorem applied to a concrete configuration
(alignment 256, one instance of 48 bytes, one 32-byte light, one 128-byte
environment record). -/
theorem C4_param_buffer_layout_witness :
    (0 < (getParamBufferConfig 256 1 48 1 32 1 128).materialIndicesOffset ∧
     (getParamBufferConfig 256 1 48 1 32 1 128).materialIndicesOffset <
       (getParamBufferConfig 256 1 48 1 32 1 128).lightsOffset ∧
     (getParamBufferConfig 256 1 48 1 32 1 128).lightsOffset <
       (getParamBufferConfig 256 1 48 1 32 1 128).envOffset ∧
     (getParamBufferConfig 256 1 48 1 32 1 128).envOffset <
       (getParamBufferConfig 256 1 48 1 32 1 128).totalParamBytes) ∧
    ((getParamBufferConfig 256 1 48 1 32 1 128).totalTransformBytes ≤
       (getParamBufferConfig 256 1 48 1 32 1 128).materialIndicesOffset ∧
     (getParamBufferConfig 256 1 48 1 32 1 128).materialIndicesOffset +
       (getParamBufferConfig 256 1 48 1 32 1 128).totalMaterialIndexBytes ≤
       (getParamBufferConfig 256 1 48 1 32 1 128).lightsOffset ∧
     (getParamBufferConfig 256 1 48 1 32 1 128).lightsOffset +
       (getParamBufferConfig 256 1 48 1 32 1 128).totalLightParamBytes ≤
       (getParamBufferConfig 256 1 48 1 32 1 128).envOffset ∧
     (getParamBufferConfig 256 1 48 1 32 1 128).envOffset +
       (getParamBufferConfig 256 1 48 1 32 1 128).totalEnvParamBytes ≤
       (getParamBufferConfig 256 1 48 1 32 1 128).totalParamBytes) ∧
    (256 ∣ (getParamBufferConfig 256 1 48 1 32 1 128).materialIndicesOffset ∧
     256 ∣ (getParamBufferConfig 256 1 48 1 32 1 128).lightsOffset ∧
     256 ∣ (getParamBufferConfig 256 1 48 1 32 1 128).envOffset ∧
     256 ∣ (getParamBufferConfig 256 1 48 1 32 1 128).totalParamBytes) ∧
    (getParamBufferConfig 256 1 48 1 32 1 128).totalParamBytes =
      alignStorageBufferOffset 256
        ((getParamBufferConfig 256 1 48 1 32 1 128).envOffset +
         (getParamBufferConfig 256 1 48 1 32 1 128).totalEnvParamBytes) ∧
    (256 ∣ 48 * 1 → 256 ∣ 4 * 1 → 256 ∣ 32 * 1 →
      (getParamBufferConfig 256 1 48 1 32 1 128).totalParamBytes =
        alignStorageBufferOffset 256 (48 * 1 + 4 * 1 + 32 * 1 + 128 * 1)) :=
  C4_param_buffer_layout 256 1 48 1 32 1 128
    (getParamBufferConfig 256 1 48 1 32 1 128) rfl
    (by decide) (by decide) (by decide) (by decide) (by decide) (by decide)
    (by decide)

/-- C4 counterexample: with the device alignment 256 and region sizes
48, 4, 32, 128 bytes the computed total (1024) differs from the sum of
the sub-region sizes rounded up to the alignment (256), refuting the
unconditional total-size formula of the claim. -/
theorem C4_total_size_counterexample :
    (getParamBufferConfig 256 1 48 1 32 1 128).totalParamBytes ≠
      alignStorageBufferOffset 256 (48 * 1 + 4 * 1 + 32 * 1 + 128 * 1) := by
  decide

theorem adaptiveExecutedIters_le (emit : ℕ → ℕ) :
    ∀ fuel start, adaptiveExecutedIters emit start fuel ≤ fuel := by
  intro fuel
  induction fuel with
  | zero => intro start; simp [adaptiveExecutedIters]
  | succ f ih =>
    intro start
    unfold adaptiveExecutedIters
    split
    · omega
    · have := ih (start + 1)
      omega

theorem adaptiveExecutedIters_break (emit : ℕ → ℕ) :
    ∀ fuel start, adaptiveExecutedIters emit start fuel < fuel →
      emit (start + adaptiveExecutedIters emit start fuel - 1) = 0 := by
  intro fuel
  induction fuel with
  | zero => intro start h; omega
  | succ f ih =>
    intro start h
    unfold adaptiveExecutedIters at h ⊢
    by_cases h0 : emit start = 0
    · rw [if_pos h0] at h ⊢
      simpa using h0
    · rw [if_neg h0] at h ⊢
      have hlt : adaptiveExecutedIters emit (start + 1) f < f := by omega
      have hrec := ih (start + 1) hlt
      rw [show start + (1 + adaptiveExecutedIters emit (start + 1) f) - 1 =
        start + 1 + adaptiveExecutedIters emit (start + 1) f - 1 by omega]
      exact hrec

theorem adaptiveExecutedIters_run (emit : ℕ → ℕ) :
    ∀ fuel start i, i + 1 < adaptiveExecutedIters emit start fuel →
      emit (start + i) ≠ 0 := by
  intro fuel
  induction fuel with
  | zero => intro start i h; simp [adaptiveExecutedIters] at h
  | succ f ih =>
    intro start i h
    unfold adaptiveExecutedIters at h
    split at h
    · omega
    · cases i with
      | zero => simpa using ‹¬ emit start = 0›
      | succ j =>
        have := ih (start + 1) j (by omega)
        rw [show start + (j + 1) = start + 1 + j by omega]
        exact this

/-- C2: for every emission history (num_tiles per iteration, as produced
by the readback pass), the adaptive convergence loop of
VulkanBackend::render executes at most maxAdaptiveIters = 10000
iterations; if it stops short of the cap, its final executed iteration
re-emitted zero work items (the break), and every earlier executed
iteration except the last re-emitted at least one work item. -/
theorem C2_convergence_loop_terminates (emit : ℕ → ℕ) :
    adaptiveLoopCount emit ≤ maxAdaptiveIters ∧
    (adaptiveLoopCount emit < maxAdaptiveIters →
      emit (adaptiveLoopCount emit - 1) = 0) ∧
    (∀ i, i + 1 < adaptiveLoopCount emit → emit i ≠ 0) := by
  refine ⟨adaptiveExecutedIters_le emit maxAdaptiveIters 0, ?_, ?_⟩
  · intro h
    have := adaptiveExecutedIters_break emit maxAdaptiveIters 0 h
    simpa using this
  · intro i h
    have := adaptiveExecutedIters_run emit maxAdaptiveIters 0 i h
    simpa using this

/-- C2 witness: for the emission history that re-emits five work items on
the first three iterations and none afterwards, the loop stays within the
cap and its final executed iteration re-emitted nothing. -/
theorem C2_convergence_loop_terminates_witness :
    adaptiveLoopCount (fun i => if i < 3 then 5 else 0) ≤ maxAdaptiveIters ∧
    (fun i => if i < 3 then 5 else 0)
      (adaptiveLoopCount (fun i => if i < 3 then 5 else 0) - 1) = 0 ∧
    (fun i => if i < 3 then 5 else 0) 1 ≠ 0 :=
  ⟨(C2_convergence_loop_terminates (fun i => if i < 3 then 5 else 0)).1,
   (C2_convergence_loop_terminates (fun i => if i < 3 then 5 else 0)).2.1
     (by decide),
   (C2_convergence_loop_terminates (fun i => if i < 3 then 5 else 0)).2.2 1
     (by decide)⟩

/-- C1: the code never re-emits any tile: processAdaptiveTile returns the
empty work-item list for every input, because of the unconditional return
at render.cpp:1923; in particular it emits nothing for a tile that the
specification's contract marks unconverged (normalized variance 1, far
above the 5e-4 threshold, and only 8 of the 160 minimum samples), while
even the unreachable re-emission code after the return would have
re-emitted that tile's two sample chunks. -/
theorem C1_no_tile_reemission :
    (∀ (spp per batchIdx tileX tileY : ℕ) (tile : AdaptiveTileStats)
        (illum : ℚ),
      processAdaptiveTile spp per batchIdx tileX tileY tile illum = []) ∧
    specTileUnconverged 16 ⟨1, 8, 8⟩ 1 ∧
    processAdaptiveTile 16 8 0 0 0 ⟨1, 8, 8⟩ 1 = [] ∧
    processAdaptiveTileUnreachableTail 16 8 0 0 0 ⟨1, 8, 8⟩ 1 =
      [⟨0, 0, 0, 0⟩, ⟨0, 0, 0, 8⟩] := by
  refine ⟨fun _ _ _ _ _ _ _ => rfl, ?_, rfl, ?_⟩
  · unfold specTileUnconverged
    left
    norm_num [normVarianceThreshold]
  · unfold processAdaptiveTileUnreachableTail
    rw [if_pos]
    · norm_num [writeTileChunks, sampleChunkOffsets, List.range_succ]
    · right
      norm_num [normVarianceThreshold]

/-- C3: in each render (or bakeProbe) call the TLAS-build loop body
invokes the build exactly once for a dirty Environment and never for a
clean one, leaves the dirty flag clear afterwards, and a clean
Environment is never rebuilt across any number of successive calls. -/
theorem C3_tlas_rebuild_iff_dirty (env : EnvironmentState) :
    (renderTLASStep env).tlasBuilds =
      env.tlasBuilds + (if env.dirty then 1 else 0) ∧
    (renderTLASStep env).dirty = false ∧
    (∀ n : ℕ, renderTLASStep^[n] { env with dirty := false } =
      { env with dirty := false }) := by
  refine ⟨?_, ?_, ?_⟩
  · unfold renderTLASStep
    cases h : env.dirty <;> simp [h]
  · unfold renderTLASStep
    cases h : env.dirty <;> simp [h]
  · intro n
    apply Function.iterate_fixed
    unfold renderTLASStep
    simp

/-- C3 witness: one call on a dirty Environment with no prior builds. -/
theorem C3_tlas_rebuild_iff_dirty_witness :
    (renderTLASStep ⟨true, 0⟩).tlasBuilds =
      (⟨true, 0⟩ : EnvironmentState).tlasBuilds +
        (if (⟨true, 0⟩ : EnvironmentState).dirty then 1 else 0) ∧
    (renderTLASStep ⟨true, 0⟩).dirty = false ∧
    (∀ n : ℕ, renderTLASStep^[n]
        { (⟨true, 0⟩ : EnvironmentState) with dirty := false } =
      { (⟨true, 0⟩ : EnvironmentState) with dirty := false }) :=
  C3_tlas_rebuild_iff_dirty ⟨true, 0⟩

theorem curBufferAt_eq_mod (n : ℕ) : curBufferAt n = n % 2 := by
  induction n with
  | zero => rfl
  | succ m ih =>
    unfold curBufferAt nextCurBuffer
    rw [ih]
    omega

/-- C5: across consecutive render calls on the same batch the
current-buffer index alternates between 0 and 1, the reservoir bound as
current in call n is exactly the reservoir bound as previous in call
n + 1, and in every call (hence in each of the two descriptor sets) the
current and previous reservoir buffers differ. -/
theorem C5_reservoir_swap (n : ℕ) :
    curBufferAt n = n % 2 ∧
    curBufferAt (n + 1) ≠ curBufferAt n ∧
    previousReservoirAt (n + 1) = currentReservoirAt n ∧
    currentReservoirAt n ≠ previousReservoirAt n := by
  have h := curBufferAt_eq_mod n
  have h1 := curBufferAt_eq_mod (n + 1)
  refine ⟨h, ?_, ?_, ?_⟩
  · rw [h, h1]; omega
  · unfold previousReservoirAt currentReservoirAt rtSetReservoirs
    rw [h, h1]
    rcases Nat.mod_two_eq_zero_or_one n with h2 | h2 <;>
      simp [h2, Nat.add_mod, Nat.mod_self]
  · unfold previousReservoirAt currentReservoirAt rtSetReservoirs
    rw [h]
    rcases Nat.mod_two_eq_zero_or_one n with h2 | h2 <;> simp [h2]

/-- C8: whenever the ZSobol index does not fit (twice the number of
base-4 index digits exceeds 32 bits) and the separate adaptive-SPP fatal
check does not fire, renderer setup continues (Except.ok, no fatalExit)
with the uniform-sampling scheme selected and the warning logged, instead
of ZSobol sampling. -/
theorem C8_zsobol_fallback (adaptiveSample : Bool)
    (aspt imgWidth imgHeight spp : ℕ)
    (hfatal : ¬(adaptiveSample = true ∧ spp < aspt))
    (hbits : 32 < numIndexDigitsBase4 imgWidth imgHeight spp * 2) :
    makeRenderStateSampling adaptiveSample aspt imgWidth imgHeight spp
        false =
      Except.ok ⟨SamplingScheme.uniform, true⟩ := by
  unfold makeRenderStateSampling chooseSamplingScheme
  rw [if_neg hfatal]
  have hn : ¬(numIndexDigitsBase4 imgWidth imgHeight spp * 2 ≤ 32) := by
    omega
  simp [hn]

/-- C8 witness: 65536 x 65536 image at 4 spp needs 17 base-4 index digits
(34 bits), so setup proceeds with uniform sampling and a warning. -/
theorem C8_zsobol_fallback_witness :
    ¬((false : Bool) = true ∧ 4 < 8) ∧
    32 < numIndexDigitsBase4 65536 65536 4 * 2 ∧
    makeRenderStateSampling false 8 65536 65536 4 false =
      Except.ok ⟨SamplingScheme.uniform, true⟩ :=
  ⟨by decide, by decide,
   C8_zsobol_fallback false 8 65536 65536 4 (by decide) (by decide)⟩

/-- C9: the scene-conversion tool fails (exit before producing output)
when given fewer than two positional arguments, when the axis-argument
count is neither zero nor exactly three, or when any axis argument is not
one of the six direction keywords; with zero axis arguments it uses the
identity transform, and valid keywords become the corresponding signed
unit-axis columns of the base transform, each keyword mapping as
convertArg specifies. -/
theorem C9_preprocess_arguments :
    (∀ argv : List String, argv.length < 3 →
      preprocessMain argv = Except.error ()) ∧
    (∀ argv : List String, 3 < argv.length → argv.length ≠ 6 →
      preprocessMain argv = Except.error ()) ∧
    (∀ prog src dst ax ay az : String,
      convertArg ax = none ∨ convertArg ay = none ∨ convertArg az = none →
      preprocessMain [prog, src, dst, ax, ay, az] = Except.error ()) ∧
    (∀ prog src dst : String,
      preprocessMain [prog, src, dst] =
        Except.ok (identityMat4, src, dst)) ∧
    (∀ (prog src dst ax ay az : String) (vx vy vz : Vec4i),
      convertArg ax = some vx → convertArg ay = some vy →
      convertArg az = some vz →
      preprocessMain [prog, src, dst, ax, ay, az] =
        Except.ok ({ identityMat4 with c0 := vx, c1 := vy, c2 := vz },
                   src, dst)) ∧
    (convertArg "up" = some ⟨0, 1, 0, 0⟩ ∧
     convertArg "down" = some ⟨0, -1, 0, 0⟩ ∧
     convertArg "right" = some ⟨1, 0, 0, 0⟩ ∧
     convertArg "left" = some ⟨-1, 0, 0, 0⟩ ∧
     convertArg "forward" = some ⟨0, 0, 1, 0⟩ ∧
     convertArg "backward" = some ⟨0, 0, -1, 0⟩) := by
  refine ⟨?_, ?_, ?_, ?_, ?_, by decide⟩
  · intro argv h
    unfold preprocessMain
    rw [if_pos h]
  · intro argv h3 h6
    unfold preprocessMain
    rw [if_neg (by omega), if_pos h3, if_pos h6]
  · intro prog src dst ax ay az h
    unfold preprocessMain
    cases hx : convertArg ax <;> cases hy : convertArg ay <;>
      cases hz : convertArg az <;>
      simp_all [List.getD]
  · intro prog src dst
    unfold preprocessMain
    simp
  · intro prog src dst ax ay az vx vy vz hx hy hz
    unfold preprocessMain
    simp [List.getD, hx, hy, hz]

/-- C9 witness: concrete invocations exercising each clause: one missing
positional argument, a single axis argument, an invalid keyword, the
zero-axis identity case, and a fully valid axis triple. -/
theorem C9_preprocess_arguments_witness :
    preprocessMain ["convert", "a"] = Except.error () ∧
    preprocessMain ["convert", "a", "b", "up"] = Except.error () ∧
    preprocessMain ["convert", "a", "b", "up", "up", "sideways"] =
      Except.error () ∧
    preprocessMain ["convert", "a", "b"] =
      Except.ok (identityMat4, "a", "b") ∧
    preprocessMain ["convert", "a", "b", "up", "forward", "left"] =
      Except.ok ({ identityMat4 with
                   c0 := ⟨0, 1, 0, 0⟩
                   c1 := ⟨0, 0, 1, 0⟩
                   c2 := ⟨-1, 0, 0, 0⟩ },
                 "a", "b") :=
  ⟨C9_preprocess_arguments.1 ["convert", "a"] (by decide),
   C9_preprocess_arguments.2.1 ["convert", "a", "b", "up"] (by decide)
     (by decide),
   C9_preprocess_arguments.2.2.1 "convert" "a" "b" "up" "up" "sideways"
     (Or.inr (Or.inr (by decide))),
   C9_preprocess_arguments.2.2.2.1 "convert" "a" "b",
   C9_preprocess_arguments.2.2.2.2.1 "convert" "a" "b" "up" "forward"
     "left" ⟨0, 1, 0, 0⟩ ⟨0, 0, 1, 0⟩ ⟨-1, 0, 0, 0⟩ (by decide) (by decide)
     (by decide)⟩

/-- C10: the move operations do null the source's state pointer and
transfer it to the destination, and EnvironmentImpl's moves transfer
every operation pointer; but LoaderImpl's move assignment leaves the
destination's old load_env_maps_ptr_ in place instead of the source's,
and RendererImpl's move assignment leaves the destination's old
make_baker_ptr_, set_env_maps_ptr_, make_batch_ptr_, bake_ptr_ and
get_bake_output_ptr_ in place, so subsequent calls through the
destination do not all dispatch as the source would have. -/
theorem C10_move_transfer_incomplete :
    (environmentMoveConstruct ⟨1, 2, 3, some 4⟩ =
      (⟨1, 2, 3, some 4⟩, ⟨1, 2, 3, none⟩) ∧
     environmentMoveAssign ⟨5, 6, 7, some 8⟩ ⟨1, 2, 3, some 4⟩ =
      (⟨1, 2, 3, some 4⟩, ⟨1, 2, 3, none⟩)) ∧
    (loaderMoveConstruct ⟨20, 21, 22, some 23⟩ =
      (⟨20, 21, 22, some 23⟩, ⟨20, 21, 22, none⟩)) ∧
    (loaderMoveAssign ⟨10, 11, 12, some 13⟩ ⟨20, 21, 22, some 23⟩ =
      (⟨20, 21, 12, some 23⟩, ⟨20, 21, 22, none⟩) ∧
     (loaderMoveAssign ⟨10, 11, 12, some 13⟩
        ⟨20, 21, 22, some 23⟩).1.loadEnvMapsPtr ≠ 22) ∧
    (rendererMoveAssign
        ⟨100, 101, 102, 103, 104, 105, 106, 107, 108, 109, 110, 111,
         some 112⟩
        ⟨200, 201, 202, 203, 204, 205, 206, 207, 208, 209, 210, 211,
         some 212⟩ =
      (⟨200, 101, 202, 203, 104, 105, 206, 107, 208, 209, 110, 211,
        some 212⟩,
       ⟨200, 201, 202, 203, 204, 205, 206, 207, 208, 209, 210, 211,
        none⟩) ∧
     (rendererMoveAssign
        ⟨100, 101, 102, 103, 104, 105, 106, 107, 108, 109, 110, 111,
         some 112⟩
        ⟨200, 201, 202, 203, 204, 205, 206, 207, 208, 209, 210, 211,
         some 212⟩).1.bakePtr ≠ 207) := by
  decide

/-- C6: round-tripping one 4-byte probe image through the exact writer
(header plus size-prefixed record) and the exact reader (records until
file.eof()) preserves the grid dimensions and the probe's bytes, but
yields one extra junk probe: eofbit is only raised by the failed read
after the last record, so the reader loop body runs once more and pushes
a probe built from an unfilled buffer (modelled none). -/
theorem C6_probe_round_trip_extra_record :
    bakeLoadProbes (serializeProbeFile (3, 3, 3) [[9, 8, 7, 6]]) =
      some ((3, 3, 3), [some [9, 8, 7, 6], none]) := by
  decide

set_option maxRecDepth 100000 in
/-- C7: bake control flow.  With no probe file, all 27 probes of the
3 x 3 x 3 grid are baked from scratch.  With a complete existing file the
code does not skip generation (the deserialization branch has no else):
it loads 28 probe entries (27 real ones plus the junk entry of C6), and
probe_count - probes_.size() performed in unsigned arithmetic wraps to
4294967295 attempted probe bakes instead of zero.  With a partial file of
5 probes it loads 6 entries and bakes only 21 of the 22 missing probes,
starting at index 6. -/
theorem C7_bake_resume_broken :
    bakeModel (3, 3, 3) none =
      some { loadedProbes := [], startIdx := 0, numBakeCalls := 27 } ∧
    (bakeModel (3, 3, 3)
        (some (serializeProbeFile (3, 3, 3)
          (List.replicate 27 [0, 0, 0, 0])))).map
        (fun r => (r.loadedProbes.length, r.numBakeCalls)) =
      some (28, 4294967295) ∧
    (bakeModel (3, 3, 3)
        (some (serializeProbeFile (3, 3, 3)
          (List.replicate 5 [0, 0, 0, 0])))).map
        (fun r => (r.loadedProbes.length, r.startIdx, r.numBakeCalls)) =
      some (6, 6, 21) := by
  refine ⟨by decide, by decide, by decide⟩

theorem toLEBytes_length (k : ℕ) : ∀ n, (toLEBytes k n).length = k := by
  induction k with
  | zero => intro n; rfl
  | succ k ih => intro n; simp [toLEBytes, ih]

theorem fromLEBytes_toLEBytes (k : ℕ) :
    ∀ n, n < 256 ^ k → fromLEBytes (toLEBytes k n) = n := by
  induction k with
  | zero =>
    intro n h
    simp at h
    simp [toLEBytes, fromLEBytes, h]
  | succ k ih =>
    intro n h
    have hdiv : n / 256 < 256 ^ k := by
      rw [Nat.div_lt_iff_lt_mul (by omega)]
      calc n < 256 ^ (k + 1) := h
        _ = 256 ^ k * 256 := by ring
    simp [toLEBytes, fromLEBytes, ih (n / 256) hdiv]
    omega

theorem serializeProbeRecords_length_ge (ps : List (List ℕ)) :
    ps.length ≤ (serializeProbeRecords ps).length := by
  induction ps with
  | nil => simp [serializeProbeRecords]
  | cons p ps ih =>
    simp [serializeProbeRecords, serializeProbeRecord, toLEBytes_length]
    omega

theorem readProbesLoop_serialized (ps : List (List ℕ)) :
    ∀ (pre : List ℕ) (acc : List (Option (List ℕ))) (fuel : ℕ),
      (∀ p ∈ ps, p.length < 2 ^ 64) →
      ps.length + 2 ≤ fuel →
      readProbesLoop fuel
          ⟨pre ++ serializeProbeRecords ps, pre.length, false, false⟩ acc =
        (acc ++ ps.map some ++ [none],
         ⟨pre ++ serializeProbeRecords ps,
          (pre ++ serializeProbeRecords ps).length, true, true⟩) := by
  induction ps with
  | nil =>
    intro pre acc fuel _ hfuel
    match fuel, hfuel with
    | f + 2, _ =>
      simp only [serializeProbeRecords, List.append_nil] at *
      rw [readProbesLoop]
      rw [if_neg (by simp [FileStream.eof])]
      have hread : streamRead ⟨pre, pre.length, false, false⟩ 8 =
          (none, ⟨pre, pre.length, true, true⟩) := by
        unfold streamRead
        rw [if_neg (by simp), if_neg (by simp)]
      have hdes : deserializeProbeFromFile ⟨pre, pre.length, false, false⟩ =
          (none, ⟨pre, pre.length, true, true⟩) := by
        unfold deserializeProbeFromFile
        rw [hread]
      rw [hdes]
      rw [readProbesLoop]
      rw [if_pos (by simp [FileStream.eof])]
      simp
  | cons p ps ih =>
    intro pre acc fuel hlen hfuel
    have hp : p.length < 2 ^ 64 := hlen p (by simp)
    match fuel, hfuel with
    | f + 1, hf =>
      have hdata : pre ++ serializeProbeRecords (p :: ps) =
          (pre ++ toLEBytes 8 p.length ++ p) ++ serializeProbeRecords ps := by
        simp [serializeProbeRecords, serializeProbeRecord,
          List.append_assoc]
      rw [readProbesLoop]
      rw [if_neg (by simp [FileStream.eof])]
      have hlen8 : (toLEBytes 8 p.length).length = 8 := toLEBytes_length 8 _
      have hread1 : streamRead
          ⟨pre ++ serializeProbeRecords (p :: ps), pre.length, false, false⟩
          8 = (some (toLEBytes 8 p.length),
            ⟨pre ++ serializeProbeRecords (p :: ps), pre.length + 8, false,
             false⟩) := by
        unfold streamRead
        rw [if_neg (by simp)]
        rw [if_pos (by
          simp [serializeProbeRecords, serializeProbeRecord, hlen8]
          try omega)]
        congr 2
        rw [show pre ++ serializeProbeRecords (p :: ps) =
            pre ++ (toLEBytes 8 p.length ++ (p ++ serializeProbeRecords ps))
          by simp [serializeProbeRecords, serializeProbeRecord,
               List.append_assoc]]
        rw [List.drop_left]
        exact List.take_left' hlen8
      have hread2 : streamRead
          ⟨pre ++ serializeProbeRecords (p :: ps), pre.length + 8, false,
           false⟩ p.length =
          (some p,
            ⟨pre ++ serializeProbeRecords (p :: ps),
             pre.length + 8 + p.length, false, false⟩) := by
        unfold streamRead
        rw [if_neg (by simp)]
        rw [if_pos (by
          simp [serializeProbeRecords, serializeProbeRecord, hlen8]
          try omega)]
        congr 2
        rw [show pre ++ serializeProbeRecords (p :: ps) =
            (pre ++ toLEBytes 8 p.length) ++ (p ++ serializeProbeRecords ps)
          by simp [serializeProbeRecords, serializeProbeRecord,
               List.append_assoc]]
        rw [List.drop_left' (by simp [hlen8]), List.take_left]
      have hdes : deserializeProbeFromFile
          ⟨pre ++ serializeProbeRecords (p :: ps), pre.length, false,
           false⟩ =
          (some p,
            ⟨pre ++ serializeProbeRecords (p :: ps),
             pre.length + 8 + p.length, false, false⟩) := by
        unfold deserializeProbeFromFile
        rw [hread1]
        simp only
        rw [fromLEBytes_toLEBytes 8 p.length (by norm_num at hp ⊢; omega)]
        rw [hread2]
      rw [hdes]
      simp only
      have hpre2 : pre.length + 8 + p.length =
          (pre ++ toLEBytes 8 p.length ++ p).length := by
        simp [hlen8]
        try omega
      rw [hdata, hpre2]
      rw [ih (pre ++ toLEBytes 8 p.length ++ p) (acc ++ [some p]) f
        (fun q hq => hlen q (by simp [hq])) (by simp at hf; omega)]
      simp [List.append_assoc]

theorem bakeLoadProbes_serialized (d : ℕ × ℕ × ℕ) (ps : List (List ℕ))
    (hd1 : d.1 < 2 ^ 32) (hd2 : d.2.1 < 2 ^ 32) (hd3 : d.2.2 < 2 ^ 32)
    (hlen : ∀ p ∈ ps, p.length < 2 ^ 64) :
    bakeLoadProbes (serializeProbeFile d ps) =
      some (d, ps.map some ++ [none]) := by
  have hdim : (serializeProbeDim d).length = 12 := by
    simp [serializeProbeDim, toLEBytes_length]
  have hfile : serializeProbeFile d ps =
      serializeProbeDim d ++ serializeProbeRecords ps := rfl
  unfold bakeLoadProbes
  have hread : streamRead ⟨serializeProbeFile d ps, 0, false, false⟩ 12 =
      (some (serializeProbeDim d),
       ⟨serializeProbeFile d ps, 12, false, false⟩) := by
    unfold streamRead
    rw [if_neg (by simp), if_pos (by simp [hfile, hdim])]
    simp [hfile, List.take_left' hdim]
  unfold bakeLoadProbes at *
  dsimp only
  rw [hread]
  simp only
  have h4 : (toLEBytes 4 d.1).length = 4 := toLEBytes_length 4 _
  have h42 : (toLEBytes 4 d.2.1).length = 4 := toLEBytes_length 4 _
  have htake : (serializeProbeDim d).take 4 = toLEBytes 4 d.1 := by
    rw [serializeProbeDim, List.append_assoc, List.take_left' h4]
  have hdrop : (serializeProbeDim d).drop 4 =
      toLEBytes 4 d.2.1 ++ toLEBytes 4 d.2.2 := by
    rw [serializeProbeDim, List.append_assoc, List.drop_left' h4]
  have h2562 : (256 : ℕ) ^ 4 = 2 ^ 32 := by norm_num
  have hloop := readProbesLoop_serialized ps (serializeProbeDim d) []
    ((serializeProbeFile d ps).length + 2) hlen
    (by
      have := serializeProbeRecords_length_ge ps
      simp [hfile, hdim]
      omega)
  rw [htake, hdrop, List.take_left' h42, List.drop_left' h42]
  rw [fromLEBytes_toLEBytes 4 d.1 (by omega),
      fromLEBytes_toLEBytes 4 d.2.1 (by omega),
      fromLEBytes_toLEBytes 4 d.2.2 (by omega)]
  rw [show (12 : ℕ) = (serializeProbeDim d).length from hdim.symm, hfile]
  rw [hfile] at hloop
  rw [hloop]
  simp
